import Mathlib

/-!
Verification development for the MAI-UI live-captioning client.

The embedding models two cooperating stateful components of the source:

* `ManagerState` with `handleMessage`, `processSegments`, `updateUI`,
  `sendAudio`, `disconnectRun`, `handleCloseStep` — the class
  `WebSocketManager` of `src/utils/websocketManager.ts`;
* `RoomState` with `onTranscriptionHandler`, `onStatusChangeHandler`,
  `onAvailableLanguagesHandler` — the React component state and the
  callbacks it registers on the manager (the room page source file).

JavaScript idioms are modelled explicitly: truthiness of optional strings,
object spread merges on records, the template rendering of numeric
timestamps into ids, and `Number(...)` parsing of id strings.  Timestamps
and server ids are JS numbers, modelled as rationals; the string rendering
and parsing functions below cover the nonnegative terminating decimals
that occur in the protocol (no exponents, signs or hex, which never occur
in the ids this client builds).  React state updates are modelled as reads
and writes of the current component state.
-/

/-- Truthiness of an optional JS string: absent and empty are falsy. -/
def truthyStr : Option String → Bool
  | some s => s ≠ ""
  | none => false

/-- `o || dflt` for an optional JS string. -/
def strOrDefault (o : Option String) (dflt : String) : String :=
  match o with
  | some s => if s = "" then dflt else s
  | none => dflt

/-- Integer part of a rational (used only on nonnegative values). -/
def ratIntPart (q : ℚ) : ℤ := q.num / (q.den : ℤ)

/-- Decimal digits of the fractional part of a nonnegative rational,
with fuel bounding the number of digits. -/
def fracDigitsAux : Nat → ℚ → String
  | 0, _ => ""
  | fuel + 1, q =>
    if q = 0 then ""
    else
      let q10 := q * 10
      let d := ratIntPart q10
      toString d ++ fracDigitsAux fuel (q10 - (d : ℚ))

/-- JS rendering of a nonnegative number into a string, as done by the
template literals building segment ids from timestamps. -/
def jsNumToString (q : ℚ) : String :=
  if q.den = 1 then toString q.num
  else toString (ratIntPart q) ++ "." ++ fracDigitsAux 20 (q - (ratIntPart q : ℚ))

/-- Splits a character list at every dot. -/
def splitOnDot (cs : List Char) : List (List Char) :=
  cs.foldr
    (fun c acc =>
      if c = '.' then [] :: acc
      else
        match acc with
        | h :: t => (c :: h) :: t
        | [] => [[c]])
    [[]]

/-- Numeric value of a digit list. -/
def digitsVal (cs : List Char) : Nat :=
  cs.foldl (fun n c => n * 10 + (c.toNat - 48)) 0

/-- A nonempty list of decimal digits. -/
def allDigits (cs : List Char) : Bool :=
  decide (cs ≠ []) && cs.all (fun c => c.isDigit)

/-- `Number(s)` as used on segment id strings: the empty string parses to
`0`, nonnegative decimal literals parse to their value, everything else is
`NaN`, modelled as `none`. -/
def parseJsNumber (s : String) : Option ℚ :=
  match s.data with
  | [] => some 0
  | cs =>
    match splitOnDot cs with
    | [a] => if allDigits a then some (digitsVal a : ℚ) else none
    | [a, b] =>
      if allDigits a && allDigits b then
        some ((digitsVal a : ℚ) + (digitsVal b : ℚ) / ((10 : ℚ) ^ b.length))
      else none
    | _ => none

/-- JS object spread `\x7b ...a, ...b \x7d` on string records: keys of `a`
keep their place with values of `b` winning, new keys of `b` follow. -/
def mergeRecords (a b : List (String × String)) : List (String × String) :=
  a.map
    (fun p =>
      match b.find? (fun q => decide (q.1 = p.1)) with
      | some q => (p.1, q.2)
      | none => p)
  ++ b.filter (fun q => (a.find? (fun p => decide (p.1 = q.1))).isNone)

/-- The `data` payload of a finalized transcript segment
(interface `TranscriptionData`; only the fields the engine reads). -/
structure TranscriptionData where
  uid : Option String
  text : String
  language : Option String
  client_name : Option String
  completed : Bool
  deriving DecidableEq

/-- A segment handed to the `onTranscription` observer
(interface `TranscriptSegment`). -/
structure TranscriptSegment where
  id : String
  text : String
  timestamp : ℚ
  name : String
  completed : Bool
  language : Option String
  translations : Option (List (String × String))
  deriving DecidableEq

/-- Entry of `transcript.recent_segments` in an inbound message. -/
structure RecentSegment where
  id : ℚ
  timestamp : ℚ
  data : TranscriptionData
  deriving DecidableEq

/-- Entry of `multilingual_transcript.recent_segments`. -/
structure RecentTranslation where
  id : ℚ
  timestamp : ℚ
  translations : List (String × String)
  deriving DecidableEq

/-- Connection status values. -/
inductive ConnStatus where
  | connected
  | disconnected
  | error
  | waiting
  | connecting
  deriving DecidableEq

/-- Observer callbacks the manager fires synchronously while handling a
message. -/
inductive Callback where
  | transcription (seg : TranscriptSegment)
  | statusChange (s : ConnStatus)
  | languageDetected (lang : String) (prob : ℚ)
  | availableLanguagesChange (langs : List String)
  | summary (s : String)
  deriving DecidableEq

/-- The socket, when one exists: `isOpen` is `readyState == OPEN`. -/
structure SocketSt where
  isOpen : Bool
  deriving DecidableEq

/-- Mutable state of the `WebSocketManager` instance. -/
structure ManagerState where
  uid : String
  socket : Option SocketSt
  packetCount : Nat
  serverBackend : Option String
  lastResponseReceived : Nat
  transcript : List (ℚ × TranscriptionData)
  multilingualTranscript : List (ℚ × List (String × String))
  lastSegment : Option (List (ℚ × TranscriptionData))
  availableLanguages : List String
  meetingSummary : String
  processedTranscriptIds : List ℚ
  processedTranslationIds : List ℚ
  deriving DecidableEq

/-- An inbound socket message after JSON decoding.  Option fields are
absent when the JSON object lacks the key; `isBinary` marks ArrayBuffer
payloads and `parseFails` marks unparseable text frames. -/
structure InboundMessage where
  isBinary : Bool := false
  parseFails : Bool := false
  uid : Option String := none
  status : Option String := none
  message : Option String := none
  backend : Option String := none
  language : Option String := none
  language_prob : Option ℚ := none
  summary : Option String := none
  transcript : Option (List RecentSegment) := none
  multilingual : Option (List RecentTranslation) := none
  lastSegments : Option (List (ℚ × TranscriptionData)) := none
  availableLanguages : Option (List String) := none
  deriving DecidableEq

/-- The id under which `updateUI` emits a finalized segment:
`String(segment.uid || (A := "transcript-") ++ timestamp)`. -/
def segKey (d : TranscriptionData) (ts : ℚ) : String :=
  strOrDefault d.uid ("transcript-" ++ jsNumToString ts)

/-- The `TranscriptSegment` that `updateUI` emits for one entry of the
finalized-segment log, matching a translation by exact timestamp. -/
def emitSegment (mult : List (ℚ × List (String × String))) (ts : ℚ)
    (d : TranscriptionData) : TranscriptSegment :=
  { id := segKey d ts
    text := d.text
    timestamp := ts
    name := strOrDefault d.client_name "Unknown"
    completed := d.completed || true
    language := d.language
    translations := (mult.find? (fun p => decide (p.1 = ts))).map (fun p => p.2) }

/-- The in-progress segment `updateUI` emits from `lastSegment`. -/
def inProgressSegment (ts : ℚ) (d : TranscriptionData) : TranscriptSegment :=
  { id := "in-progress-" ++ jsNumToString ts
    text := d.text
    timestamp := ts
    name := strOrDefault d.client_name "Unknown"
    completed := false
    language := d.language
    translations := some [] }

/-- The live-segment part of the `updateUI` emission: the first entry of
`lastSegment`, only when it carries nonempty text. -/
def liveEmits (st : ManagerState) : List TranscriptSegment :=
  match st.lastSegment with
  | some ((ts, d) :: _) => if d.text = "" then [] else [inProgressSegment ts d]
  | _ => []

/-- All `onTranscription` emissions of one `updateUI` pass: every entry of
the whole accumulated finalized-segment log, then the live segment. -/
def updateUI (st : ManagerState) : List TranscriptSegment :=
  st.transcript.map (fun p => emitSegment st.multilingualTranscript p.1 p.2)
  ++ liveEmits st

/-- The four inputs of `processSegments`. -/
structure SegEvent where
  multilingual : Option (List RecentTranslation)
  transcript : List RecentSegment
  lastSegments : Option (List (ℚ × TranscriptionData))
  availableLanguages : List String
  deriving DecidableEq

/-- One entry of the `transcript.recent_segments` loop: an id not yet
seen is recorded and its `(timestamp, data)` appended to the log; seen ids
are skipped. -/
def transcriptStep (acc : ManagerState) (seg : RecentSegment) : ManagerState :=
  if seg.id ∈ acc.processedTranscriptIds then acc
  else
    { acc with
      processedTranscriptIds := seg.id :: acc.processedTranscriptIds
      transcript := acc.transcript ++ [(seg.timestamp, seg.data)] }

/-- One pass over `transcript.recent_segments`. -/
def foldTranscript (st : ManagerState) (segs : List RecentSegment) : ManagerState :=
  segs.foldl transcriptStep st

/-- One entry of the `multilingual_transcript.recent_segments` loop,
deduplicated in its own id namespace. -/
def translationStep (acc : ManagerState) (tr : RecentTranslation) : ManagerState :=
  if tr.id ∈ acc.processedTranslationIds then acc
  else
    { acc with
      processedTranslationIds := tr.id :: acc.processedTranslationIds
      multilingualTranscript := acc.multilingualTranscript ++ [(tr.timestamp, tr.translations)] }

/-- One pass over `multilingual_transcript.recent_segments`, independent
of the transcript pass. -/
def foldTranslations (st : ManagerState) (trs : List RecentTranslation) : ManagerState :=
  trs.foldl translationStep st

/-- `processSegments`: update available languages (observers are notified
on every occurrence), dedup-append both logs, replace the live-segment
pointer wholesale, then emit the `updateUI` pass.  The lazy-init guards of
the source are dead code because the tracking sets are initialized at
construction. -/
def processSegments (st : ManagerState) (ev : SegEvent) (now : Nat) :
    ManagerState × List Callback :=
  let st1 := { st with availableLanguages := ev.availableLanguages }
  let st2 := foldTranscript st1 ev.transcript
  let st3 :=
    match ev.multilingual with
    | some trs => foldTranslations st2 trs
    | none => st2
  let st4 := { st3 with lastSegment := ev.lastSegments, lastResponseReceived := now }
  (st4,
    Callback.availableLanguagesChange ev.availableLanguages
      :: (updateUI st4).map Callback.transcription)

/-- `handleStatusMessages`: WAIT and ERROR drive the status, WARNING only
logs. -/
def statusCallbacks (status : String) : List Callback :=
  if status = "WAIT" then [Callback.statusChange ConnStatus.waiting]
  else if status = "ERROR" then [Callback.statusChange ConnStatus.error]
  else []

/-- `handleMessage`: binary and unparseable frames are dropped, a truthy
`uid` differing from the session uid discards the message, then the
status / DISCONNECT / SERVER_READY / language / summary / transcript
shapes are dispatched in source order (summary falls through to the
transcript check). -/
def handleMessage (st : ManagerState) (msg : InboundMessage) (now : Nat) :
    ManagerState × List Callback :=
  if msg.isBinary then (st, [])
  else if msg.parseFails then (st, [])
  else if truthyStr msg.uid ∧ msg.uid ≠ some st.uid then (st, [])
  else if truthyStr msg.status then (st, statusCallbacks (msg.status.getD ""))
  else if msg.message = some "DISCONNECT" then
    (st, [Callback.statusChange ConnStatus.disconnected])
  else if msg.message = some "SERVER_READY" then
    ({ st with lastResponseReceived := now, serverBackend := msg.backend },
      [Callback.statusChange ConnStatus.connected])
  else if truthyStr msg.language ∧ (msg.language_prob.getD 0) ≠ 0 then
    (st, [Callback.languageDetected (msg.language.getD "") (msg.language_prob.getD 0)])
  else
    let p1 :=
      match msg.summary with
      | some s =>
        ({ st with lastResponseReceived := now, meetingSummary := s },
          [Callback.summary s])
      | none => (st, [])
    match msg.transcript with
    | some segs =>
      let p2 :=
        processSegments { p1.1 with lastResponseReceived := now }
          { multilingual := msg.multilingual
            transcript := segs
            lastSegments := msg.lastSegments
            availableLanguages := msg.availableLanguages.getD [] } now
      (p2.1, p1.2 ++ p2.2)
    | none => p1

/-- Whether a socket exists and is open. -/
def socketIsOpen (st : ManagerState) : Bool :=
  match st.socket with
  | some s => s.isOpen
  | none => false

/-- `sendAudio`: `(returned, transmitted, state)`.  Without an open socket
it returns false untouched; an exception inside `send` is modelled by
`throws` and also returns false without bumping the packet counter. -/
def sendAudio (st : ManagerState) (throws : Bool) :
    Bool × Bool × ManagerState :=
  if socketIsOpen st = false then (false, false, st)
  else if throws then (false, false, st)
  else (true, true, { st with packetCount := st.packetCount + 1 })

/-- `disconnect()`: best-effort disconnect notice when the socket is open
(the returned flag), then close and null the socket.  Clearing of the
transcript data happens later in the close handler. -/
def disconnectRun (st : ManagerState) : ManagerState × Bool :=
  ({ st with socket := none }, socketIsOpen st)

/-- `handleClose`: notify disconnection and reset the staging logs and
the live-segment pointer.  The processed-id sets are not touched. -/
def handleCloseStep (st : ManagerState) : ManagerState × List Callback :=
  ({ st with transcript := [], multilingualTranscript := [], lastSegment := none },
    [Callback.statusChange ConnStatus.disconnected])

/-- `connect()`: notify `connecting`, create a fresh not-yet-open socket,
reset the packet counter. -/
def connectRun (st : ManagerState) : ManagerState × List Callback :=
  ({ st with socket := some { isOpen := false }, packetCount := 0 },
    [Callback.statusChange ConnStatus.connecting])

/-- The socket open event: the socket becomes OPEN (the handshake send is
not observed by any claim). -/
def socketOpenStep (st : ManagerState) : ManagerState :=
  match st.socket with
  | some _ => { st with socket := some { isOpen := true } }
  | none => st

/-- A fresh `WebSocketManager` for a session uid. -/
def mgrInit (uid : String) : ManagerState :=
  { uid := uid
    socket := none
    packetCount := 0
    serverBackend := some ""
    lastResponseReceived := 0
    transcript := []
    multilingualTranscript := []
    lastSegment := none
    availableLanguages := []
    meetingSummary := ""
    processedTranscriptIds := []
    processedTranslationIds := [] }

/-- Actions the room callbacks trigger besides state updates: stopping the
audio capture, and scheduling a silent reconnect after a delay in ms. -/
inductive RoomAction where
  | audioStop
  | scheduleRetry (ms : Nat)
  deriving DecidableEq

/-- React state of the room page (the fields the registered callbacks
read or write; `storedLanguage` models the localStorage slot). -/
structure RoomState where
  status : ConnStatus
  isRecording : Bool
  transcriptMap : List (String × TranscriptSegment)
  globalTranscriptId : Option String
  latestTranscriptData : Option TranscriptSegment
  newestTranscriptId : Option String
  connectionError : Option String
  connectionAttempts : Nat
  detectedLanguage : Option String
  availableLanguages : List String
  selectedLanguage : Option String
  storedLanguage : Option String
  meetingSummary : String
  deriving DecidableEq

/-- Lookup in the id-keyed transcript store (a JS object). -/
def storeGet (m : List (String × TranscriptSegment)) (k : String) :
    Option TranscriptSegment :=
  (m.find? (fun p => decide (p.1 = k))).map (fun p => p.2)

/-- JS object update: an existing key keeps its place, a new key is
appended. -/
def storeSet (m : List (String × TranscriptSegment)) (k : String)
    (v : TranscriptSegment) : List (String × TranscriptSegment) :=
  if (m.find? (fun p => decide (p.1 = k))).isSome then
    m.map (fun p => if p.1 = k then (k, v) else p)
  else m ++ [(k, v)]

/-- The merge the room applies when a segment arrives for an id already in
the store: spread of the incoming fields over the old entry, with the
translations records merged instead of overwritten. -/
def mergeTranscript (existing incoming : TranscriptSegment) : TranscriptSegment :=
  { incoming with
    translations :=
      some (mergeRecords (existing.translations.getD []) (incoming.translations.getD [])) }

/-- Store step of the `onTranscription` handler. -/
def storeUpsert (m : List (String × TranscriptSegment)) (d : TranscriptSegment) :
    List (String × TranscriptSegment) :=
  match storeGet m d.id with
  | some existing => storeSet m d.id (mergeTranscript existing d)
  | none => storeSet m d.id d

/-- The advancing-identifier update condition of the `onTranscription`
handler: replace when the pointer is falsy, or when both the incoming id
and the pointer parse as numbers and the incoming one is greater. -/
def jsUpdateGlobal (g : Option String) (id : String) : Bool :=
  match g with
  | none => true
  | some gid =>
    if gid = "" then true
    else
      match parseJsNumber id, parseJsNumber gid with
      | some a, some b => decide (b < a)
      | _, _ => false

/-- The `onTranscription` handler of the room: validate the id, track the
newest and latest segment, maybe advance the global identifier, and merge
the segment into the id-keyed store. -/
def onTranscriptionHandler (r : RoomState) (d : TranscriptSegment) : RoomState :=
  if d.id = "" then r
  else
    let r1 := { r with newestTranscriptId := some d.id, latestTranscriptData := some d }
    let r2 :=
      if jsUpdateGlobal r1.globalTranscriptId d.id then
        { r1 with globalTranscriptId := some d.id }
      else r1
    { r2 with transcriptMap := storeUpsert r2.transcriptMap d }

/-- The terminal error text shown after the retry budget is exhausted. -/
def terminalErrorMsg (attempts : Nat) : String :=
  "Failed to connect to server after " ++ toString attempts
    ++ " attempts. Please check your server URL and port. Make sure your server is running and accessible."

/-- The transient error text shown while silent retries continue. -/
def retryingMsg (attempts : Nat) : String :=
  "Connection attempt " ++ toString attempts ++ " failed. Retrying..."

/-- The capacity text shown for the waiting status. -/
def capacityMsg : String :=
  "Server is at capacity. Please wait until a slot becomes available."

/-- The `onStatusChange` handler of the room: record the status, stop an
active recording on error or disconnection, and run the retry bookkeeping
(increment on error, schedule a 3000 ms silent retry while under the
budget, surface the terminal error at the budget, reset on connected). -/
def onStatusChangeHandler (r : RoomState) (newStatus : ConnStatus) :
    RoomState × List RoomAction :=
  let r1 := { r with status := newStatus }
  let p :=
    if (newStatus = ConnStatus.error ∨ newStatus = ConnStatus.disconnected)
        ∧ r.isRecording then
      ({ r1 with isRecording := false }, [RoomAction.audioStop])
    else (r1, ([] : List RoomAction))
  if newStatus = ConnStatus.error then
    let attempts := r.connectionAttempts + 1
    let r3 := { p.1 with connectionAttempts := attempts }
    if attempts ≥ 3 then
      ({ r3 with connectionError := some (terminalErrorMsg attempts) }, p.2)
    else
      ({ r3 with connectionError := some (retryingMsg attempts) },
        p.2 ++ [RoomAction.scheduleRetry 3000])
  else if newStatus = ConnStatus.connected then
    ({ p.1 with connectionError := none, connectionAttempts := 0 }, p.2)
  else if newStatus = ConnStatus.waiting then
    ({ p.1 with connectionError := some capacityMsg }, p.2)
  else p

/-- The `onAvailableLanguagesChange` handler: replace the known language
set and pick a default selected language only when none is chosen yet. -/
def onAvailableLanguagesHandler (r : RoomState) (ls : List String) : RoomState :=
  let r1 := { r with availableLanguages := ls }
  if 0 < ls.length ∧ truthyStr r.selectedLanguage = false then
    match r1.storedLanguage with
    | some saved =>
      if saved ≠ "" ∧ saved ∈ ls then { r1 with selectedLanguage := some saved }
      else
        { r1 with
          selectedLanguage := some (ls.headD "")
          storedLanguage := some (ls.headD "") }
    | none =>
      { r1 with
        selectedLanguage := some (ls.headD "")
        storedLanguage := some (ls.headD "") }
  else r1

/-- Dispatch of one manager callback into the room handlers. -/
def roomHandleCallback (r : RoomState) (c : Callback) :
    RoomState × List RoomAction :=
  match c with
  | Callback.statusChange s => onStatusChangeHandler r s
  | Callback.transcription d => (onTranscriptionHandler r d, [])
  | Callback.languageDetected lang _ => ({ r with detectedLanguage := some lang }, [])
  | Callback.availableLanguagesChange ls => (onAvailableLanguagesHandler r ls, [])
  | Callback.summary s =>
    (if s ≠ "" then { r with meetingSummary := s } else r, [])

/-- Applies a callback list in emission order. -/
def applyCallbacks (r : RoomState) (cbs : List Callback) :
    RoomState × List RoomAction :=
  cbs.foldl
    (fun p c =>
      let q := roomHandleCallback p.1 c
      (q.1, p.2 ++ q.2))
    (r, [])

/-- Room state right after mount, before any connection: status starts as
disconnected, the stored language seeds the selection. -/
def roomInit (stored : Option String) : RoomState :=
  { status := ConnStatus.disconnected
    isRecording := false
    transcriptMap := []
    globalTranscriptId := none
    latestTranscriptData := none
    newestTranscriptId := none
    connectionError := none
    connectionAttempts := 0
    detectedLanguage := none
    availableLanguages := []
    selectedLanguage := if truthyStr stored then stored else none
    storedLanguage := stored
    meetingSummary := "" }

/-- Combined state of the room page and its manager. -/
structure SysState where
  room : RoomState
  mgr : ManagerState
  deriving DecidableEq

/-- Events of the combined system: inbound socket messages, socket-level
error / close / open, the record toggle (enabled only while connected),
an audio frame from the capture pipeline, a manual or scheduled
`connect()`, and the leave-room `disconnect()`. -/
inductive SysEvent where
  | inbound (msg : InboundMessage)
  | socketError
  | socketClose
  | socketOpen
  | userToggleRecord
  | audioFrame (throws : Bool)
  | manualConnect
  | userDisconnect

/-- One system step; the boolean reports whether an audio frame was
transmitted during the step. -/
def sysStep (s : SysState) (e : SysEvent) : SysState × Bool :=
  match e with
  | SysEvent.inbound msg =>
    let p := handleMessage s.mgr msg 0
    ({ room := (applyCallbacks s.room p.2).1, mgr := p.1 }, false)
  | SysEvent.socketError =>
    ({ room := (applyCallbacks s.room [Callback.statusChange ConnStatus.error]).1
       mgr := s.mgr }, false)
  | SysEvent.socketClose =>
    let p := handleCloseStep s.mgr
    ({ room := (applyCallbacks s.room p.2).1, mgr := p.1 }, false)
  | SysEvent.socketOpen => ({ room := s.room, mgr := socketOpenStep s.mgr }, false)
  | SysEvent.userToggleRecord =>
    if s.room.isRecording then
      ({ room := { s.room with isRecording := false }, mgr := s.mgr }, false)
    else if s.room.status = ConnStatus.connected then
      ({ room := { s.room with isRecording := true }, mgr := s.mgr }, false)
    else (s, false)
  | SysEvent.audioFrame throws =>
    if s.room.isRecording then
      let p := sendAudio s.mgr throws
      ({ room := s.room, mgr := p.2.2 }, p.2.1)
    else (s, false)
  | SysEvent.manualConnect =>
    let p := connectRun s.mgr
    ({ room := (applyCallbacks s.room p.2).1, mgr := p.1 }, false)
  | SysEvent.userDisconnect =>
    ({ room := s.room, mgr := (disconnectRun s.mgr).1 }, false)

/-- Runs a list of system events. -/
def sysRun (s : SysState) (evs : List SysEvent) : SysState :=
  evs.foldl (fun s e => (sysStep s e).1) s

/-- Fresh combined state for a session uid and stored language. -/
def sysInit (uid : String) (stored : Option String) : SysState :=
  { room := roomInit stored, mgr := mgrInit uid }

/-! ### Concrete protocol scenarios used by the claims -/

/-- Finalized segment payload with text `hello`; the server fills the
segment id into the `uid` field of its data payload. -/
def dHello : TranscriptionData :=
  { uid := some "5", text := "hello", language := none, client_name := none
    completed := true }

/-- Transcript event carrying the finalized segment `id 5, timestamp 12`. -/
def msgSeg5 : InboundMessage :=
  { transcript := some [{ id := 5, timestamp := 12, data := dHello }] }

/-- Later transcript event carrying the multilingual entry
`id 9, timestamp 12` with a Spanish translation. -/
def msgTrans9 : InboundMessage :=
  { transcript := some []
    multilingual := some [{ id := 9, timestamp := 12, translations := [("es", "hola")] }] }

/-- Live-segment payload with the given text. -/
def dLive (t : String) : TranscriptionData :=
  { uid := none, text := t, language := none, client_name := none
    completed := false }

/-- Transcript event whose `last_segments` designates a live segment at
the given timestamp. -/
def msgLive (ts : ℚ) : InboundMessage :=
  { transcript := some [], lastSegments := some [(ts, dLive "typing")] }

/-- Counts the store entries whose key begins with the live-segment
marker. -/
def inProgressCount (m : List (String × TranscriptSegment)) : Nat :=
  (m.filter (fun p => decide (p.1.data.take 12 = "in-progress-".data))).length

/-- C1.  Scenario B: a transcript event delivers finalized segment
`\x7bid:5, timestamp:12.0, text:"hello"\x7d` (the segment id also standing in
the `uid` field of its data payload, which is the key `updateUI` emits
under) and a later message delivers the multilingual entry
`\x7bid:9, timestamp:12.0, translations:\x7bes:"hola"\x7d\x7d`; the keyed store then
holds, under the key `5`, text `hello`, translations `es ↦ hola`, and
`completed = true`. -/
theorem c1_scenario_b :
    storeGet
        (sysRun (sysInit "abc" none)
          [SysEvent.inbound msgSeg5, SysEvent.inbound msgTrans9]).room.transcriptMap
        "5"
      = some
          { id := "5", text := "hello", timestamp := 12, name := "Unknown"
            completed := true, language := none
            translations := some [("es", "hola")] } := by
  decide

/-- C2, counterexample.  After two `last_segments` updates with distinct
timestamps (3 and then 4), the keyed store holds TWO entries whose id
starts with `in-progress-` — the superseded `in-progress-3` entry is never
deleted — contradicting the claim that exactly one live entry exists and
that only the most recent update is reflected. -/
theorem c2_counterexample :
    inProgressCount
        (sysRun (sysInit "abc" none)
          [SysEvent.inbound (msgLive 3), SysEvent.inbound (msgLive 4)]).room.transcriptMap
      = 2 ∧
    (storeGet
        (sysRun (sysInit "abc" none)
          [SysEvent.inbound (msgLive 3), SysEvent.inbound (msgLive 4)]).room.transcriptMap
        "in-progress-3").isSome = true := by
  decide

/-- Inbound frame carrying an empty-string uid together with a server
ERROR status. -/
def c4Msg : InboundMessage := { uid := some "", status := some "ERROR" }

/-- C4, counterexample.  A message that carries a `uid` field differing
from the session identity (`""` versus `"abc"`) is NOT ignored: the
truthiness guard of the source lets the empty string through, and the
message drives the connection status to `error`. -/
theorem c4_counterexample :
    c4Msg.uid = some "" ∧
    c4Msg.uid ≠ some (sysInit "abc" none).mgr.uid ∧
    (sysStep (sysInit "abc" none) (SysEvent.inbound c4Msg)).1.room.status
      = ConnStatus.error ∧
    (sysInit "abc" none).room.status ≠ ConnStatus.error := by
  decide

/-- C5, counterexample.  After three consecutive socket failures the
attempt counter stands at 3 with the terminal error surfaced; an
externally triggered manual `connect()` is then processed (the status
moves to `connecting`) but the attempt counter is NOT reset to zero,
contradicting the claim that a manual `connect()` resets it. -/
theorem c5_counterexample :
    (sysRun (sysInit "abc" none)
        [SysEvent.socketError, SysEvent.socketError, SysEvent.socketError]).room.connectionAttempts
      = 3 ∧
    (sysRun (sysInit "abc" none)
        [SysEvent.socketError, SysEvent.socketError, SysEvent.socketError,
          SysEvent.manualConnect]).room.status = ConnStatus.connecting ∧
    (sysRun (sysInit "abc" none)
        [SysEvent.socketError, SysEvent.socketError, SysEvent.socketError,
          SysEvent.manualConnect]).room.connectionAttempts = 3 := by
  decide

/-- Room state whose advancing identifier currently points at the numeric
id `5`. -/
def c6Room : RoomState := { roomInit none with globalTranscriptId := some "5" }

/-- A segment whose id does not parse as a number. -/
def c6Seg : TranscriptSegment :=
  { id := "in-progress-7.5", text := "x", timestamp := 7, name := "Unknown"
    completed := false, language := none, translations := some [] }

/-- C6, counterexample.  An incoming segment id that fails to parse as
numeric does NOT replace the advancing identifier: with the pointer at
`5`, delivering id `in-progress-7.5` leaves the pointer at `5`,
contradicting the claim that non-numeric ids are treated as always-newer
and replace the pointer unconditionally. -/
theorem c6_counterexample :
    parseJsNumber c6Seg.id = none ∧
    (onTranscriptionHandler c6Room c6Seg).globalTranscriptId = some "5" := by
  decide

/-- Second-session payload for the previously seen segment id 5, now with
text `world`. -/
def dWorld : TranscriptionData :=
  { uid := some "5", text := "world", language := none, client_name := none
    completed := true }

/-- Second-session transcript event redelivering segment id 5. -/
def msgSeg5b : InboundMessage :=
  { transcript := some [{ id := 5, timestamp := 20, data := dWorld }] }

/-- C7, counterexample.  Session one processes segment id 5; after
`disconnect()` and the close event, a fresh connection delivers id 5 again
with new text, but the per-session seen-id set survived the disconnect, so
the segment is skipped: the staging log stays empty and the store still
shows the old text — the new connection does not process every id as
new. -/
theorem c7_counterexample :
    (sysRun (sysInit "abc" none)
        [SysEvent.inbound msgSeg5, SysEvent.userDisconnect, SysEvent.socketClose,
          SysEvent.manualConnect, SysEvent.socketOpen,
          SysEvent.inbound msgSeg5b]).mgr.processedTranscriptIds = [5] ∧
    (sysRun (sysInit "abc" none)
        [SysEvent.inbound msgSeg5, SysEvent.userDisconnect, SysEvent.socketClose,
          SysEvent.manualConnect, SysEvent.socketOpen,
          SysEvent.inbound msgSeg5b]).mgr.transcript = [] ∧
    (storeGet
        (sysRun (sysInit "abc" none)
          [SysEvent.inbound msgSeg5, SysEvent.userDisconnect, SysEvent.socketClose,
            SysEvent.manualConnect, SysEvent.socketOpen,
            SysEvent.inbound msgSeg5b]).room.transcriptMap "5").map
        (fun s => s.text)
      = some "hello" := by
  decide

/-- SERVER_READY control message. -/
def readyMsg : InboundMessage :=
  { message := some "SERVER_READY", backend := some "faster_whisper" }

/-- Server capacity message. -/
def waitMsg : InboundMessage := { status := some "WAIT", message := some "5" }

/-- The system after connecting, reaching `connected`, starting the
recording, and then receiving a WAIT status: recording is still active
while the status is `waiting`. -/
def c9Pre : SysState :=
  sysRun (sysInit "abc" none)
    [SysEvent.manualConnect, SysEvent.socketOpen, SysEvent.inbound readyMsg,
      SysEvent.userToggleRecord, SysEvent.inbound waitMsg]

/-- C9, counterexample.  With the status at `waiting` — not `connected` —
an audio frame is still transmitted: receiving a WAIT status does not stop
the capture, so the engine does transmit audio while the connection is not
in the connected state. -/
theorem c9_counterexample :
    c9Pre.room.status = ConnStatus.waiting ∧
    (sysStep c9Pre (SysEvent.audioFrame false)).2 = true := by
  decide

/-! ### Helper lemmas -/

/-- Messages whose truthy uid differs from the session uid are dropped
before any dispatch. -/
theorem handleMessage_uid_mismatch (st : ManagerState) (msg : InboundMessage)
    (now : Nat) (u : String) (h1 : msg.uid = some u) (h2 : u ≠ "")
    (h3 : u ≠ st.uid) : handleMessage st msg now = (st, []) := by
  unfold handleMessage
  by_cases hb : msg.isBinary
  · simp [hb]
  · by_cases hp : msg.parseFails
    · simp [hb, hp]
    · simp [hb, hp, h1, truthyStr, h2, h3]

/-- An error notification always increments the room attempt counter. -/
theorem onError_attempts (r : RoomState) :
    ((onStatusChangeHandler r ConnStatus.error).1).connectionAttempts
      = r.connectionAttempts + 1 := by
  simp only [onStatusChangeHandler]
  split_ifs <;> rfl

/-- Number of scheduled silent retries among a list of room actions. -/
def countRetries (acts : List RoomAction) : Nat :=
  (acts.filter fun a =>
    match a with
    | RoomAction.scheduleRetry _ => true
    | _ => false).length

/-- An error notification schedules exactly one silent retry while the
incremented counter is below 3, none afterwards. -/
theorem onError_count (r : RoomState) :
    countRetries (onStatusChangeHandler r ConnStatus.error).2
      = if r.connectionAttempts + 1 ≥ 3 then 0 else 1 := by
  simp only [onStatusChangeHandler]
  split_ifs <;> simp [countRetries]

/-- Folds `n` consecutive error notifications, counting scheduled
retries. -/
def errorRun : RoomState → Nat → RoomState × Nat
  | r, 0 => (r, 0)
  | r, n + 1 =>
    let p := onStatusChangeHandler r ConnStatus.error
    let q := errorRun p.1 n
    (q.1, countRetries p.2 + q.2)

/-- Retry count over a run of consecutive errors, as a function of the
starting attempt counter. -/
theorem errorRun_count :
    ∀ (n : Nat) (r : RoomState),
      (errorRun r n).2
        = min 2 (r.connectionAttempts + n) - min 2 r.connectionAttempts := by
  intro n
  induction n with
  | zero => intro r; simp [errorRun]
  | succ n ih =>
    intro r
    have h1 := onError_attempts r
    have h2 := onError_count r
    simp only [errorRun]
    rw [h2, ih ((onStatusChangeHandler r ConnStatus.error).1), h1]
    split_ifs with h <;> omega

/-- C5, amended.  The automatic retry policy is bounded: a run of `n`
consecutive error notifications from a fresh counter schedules exactly
`min 2 n` silent retries; every scheduled retry uses the fixed 3000 ms
delay; from the 3rd consecutive failure on, no retry is scheduled and the
terminal user-visible error is surfaced; the counter resets to zero when
`connected` is reached — but an externally triggered manual `connect()`
does NOT reset it (it only drives the status to `connecting`). -/
theorem c5_amended :
    (∀ (r : RoomState) (n : Nat), r.connectionAttempts = 0 →
      (errorRun r n).2 = min 2 n) ∧
    (∀ (r : RoomState) (ms : Nat),
      RoomAction.scheduleRetry ms ∈ (onStatusChangeHandler r ConnStatus.error).2 →
        ms = 3000) ∧
    (∀ r : RoomState, 2 ≤ r.connectionAttempts →
      countRetries (onStatusChangeHandler r ConnStatus.error).2 = 0 ∧
      ((onStatusChangeHandler r ConnStatus.error).1).connectionError
        = some (terminalErrorMsg (r.connectionAttempts + 1))) ∧
    (∀ r : RoomState,
      ((onStatusChangeHandler r ConnStatus.connected).1).connectionAttempts = 0) ∧
    (∀ s : SysState,
      ((sysStep s SysEvent.manualConnect).1).room.connectionAttempts
        = s.room.connectionAttempts) := by
  refine ⟨?_, ?_, ?_, ?_, ?_⟩
  · intro r n h
    rw [errorRun_count n r, h]
    omega
  · intro r ms h
    simp [onStatusChangeHandler] at h
    split_ifs at h <;> simp at h <;> omega
  · intro r h
    have h1 := onError_count r
    constructor
    · rw [h1]
      split_ifs with h2
      · rfl
      · omega
    · simp [onStatusChangeHandler]
      split_ifs <;> first
        | rfl
        | omega
  · intro r
    simp [onStatusChangeHandler]
  · intro s
    simp [sysStep, connectRun, applyCallbacks, roomHandleCallback,
      onStatusChangeHandler]

/-- C5 witness: five consecutive failures from a fresh room schedule
exactly two silent retries, and at an exhausted counter the error
notification schedules none. -/
theorem c5_amended_witness :
    (errorRun (roomInit none) 5).2 = min 2 5 ∧
    countRetries
        (onStatusChangeHandler { roomInit none with connectionAttempts := 2 }
          ConnStatus.error).2 = 0 :=
  ⟨c5_amended.1 (roomInit none) 5 rfl,
    (c5_amended.2.2.1 { roomInit none with connectionAttempts := 2 } (by decide)).1⟩

/-- C4, amended.  Every inbound message carrying a NON-EMPTY identity
field differing from the session identity is fully ignored: the manager
state is unchanged, no callback fires, and the combined system state is
untouched.  (The empty-string uid slips through the truthiness guard, see
the counterexample.) -/
theorem c4_amended (s : SysState) (msg : InboundMessage) (u : String) (now : Nat)
    (h1 : msg.uid = some u) (h2 : u ≠ "") (h3 : u ≠ s.mgr.uid) :
    handleMessage s.mgr msg now = (s.mgr, []) ∧
    sysStep s (SysEvent.inbound msg) = (s, false) := by
  refine ⟨handleMessage_uid_mismatch s.mgr msg now u h1 h2 h3, ?_⟩
  simp only [sysStep, handleMessage_uid_mismatch s.mgr msg 0 u h1 h2 h3,
    applyCallbacks, List.foldl_nil]

/-- C4 witness: Scenario D, an inbound ERROR message with uid `xyz` while
the session uid is `abc` leaves the whole system untouched. -/
theorem c4_amended_witness :
    handleMessage (sysInit "abc" none).mgr
        { uid := some "xyz", status := some "ERROR" } 0
      = ((sysInit "abc" none).mgr, []) ∧
    sysStep (sysInit "abc" none)
        (SysEvent.inbound { uid := some "xyz", status := some "ERROR" })
      = (sysInit "abc" none, false) :=
  c4_amended (sysInit "abc" none) { uid := some "xyz", status := some "ERROR" }
    "xyz" 0 rfl (by decide) (by decide)

/-- C7, amended.  The close handler clears the staging logs and the
live-segment pointer and `disconnect()` nulls the socket, but the
per-session seen-id sets are NOT cleared: a segment whose id was already
seen — in this or a previous session — is skipped entirely, so a new
connection does not process every delivered id as new. -/
theorem c7_amended :
    (∀ st : ManagerState,
      (handleCloseStep st).1.transcript = [] ∧
      (handleCloseStep st).1.multilingualTranscript = [] ∧
      (handleCloseStep st).1.lastSegment = none ∧
      (handleCloseStep st).1.processedTranscriptIds = st.processedTranscriptIds ∧
      (handleCloseStep st).1.processedTranslationIds = st.processedTranslationIds ∧
      ((disconnectRun st).1).socket = none) ∧
    (∀ (st : ManagerState) (seg : RecentSegment),
      seg.id ∈ st.processedTranscriptIds → foldTranscript st [seg] = st) := by
  constructor
  · intro st
    refine ⟨rfl, rfl, rfl, rfl, rfl, rfl⟩
  · intro st seg h
    simp [foldTranscript, transcriptStep, h]

/-- C7 witness: with id 5 already seen, redelivering segment 5 leaves the
manager state unchanged. -/
theorem c7_amended_witness :
    foldTranscript { mgrInit "abc" with processedTranscriptIds := [5] }
        [{ id := 5, timestamp := 20, data := dWorld }]
      = { mgrInit "abc" with processedTranscriptIds := [5] } :=
  c7_amended.2 { mgrInit "abc" with processedTranscriptIds := [5] }
    { id := 5, timestamp := 20, data := dWorld } (by simp)

/-- C8.  `sendAudio` returns true only when a socket exists and is open;
without an open socket it returns false, transmits nothing and leaves the
state untouched; the frame is transmitted exactly when true is returned;
and the only possible state change is the packet-counter increment. -/
theorem c8_sendAudio :
    ∀ (st : ManagerState) (throws : Bool),
      ((sendAudio st throws).1 = true → socketIsOpen st = true) ∧
      (socketIsOpen st = false →
        (sendAudio st throws).1 = false ∧ (sendAudio st throws).2.1 = false ∧
          (sendAudio st throws).2.2 = st) ∧
      ((sendAudio st throws).2.1 = (sendAudio st throws).1) ∧
      ((sendAudio st throws).2.2 = st ∨
        (sendAudio st throws).2.2 = { st with packetCount := st.packetCount + 1 }) := by
  intro st throws
  unfold sendAudio
  by_cases h : socketIsOpen st = false
  · simp [h]
  · by_cases ht : throws <;> simp [h, ht]

/-- C8 witness: with no socket, sending returns false, transmits nothing
and changes nothing. -/
theorem c8_sendAudio_witness :
    (sendAudio (mgrInit "abc") false).1 = false ∧
    (sendAudio (mgrInit "abc") false).2.1 = false ∧
    (sendAudio (mgrInit "abc") false).2.2 = mgrInit "abc" :=
  (c8_sendAudio (mgrInit "abc") false).2.1 (by decide)

/-- A key is found in the store exactly when some entry carries it. -/
theorem storeGet_isSome_iff (m : List (String × TranscriptSegment)) (k : String) :
    (storeGet m k).isSome = true ↔ ∃ q ∈ m, q.1 = k := by
  simp [storeGet]

/-- A store update never removes an existing key. -/
theorem storeGet_storeSet_isSome (m : List (String × TranscriptSegment))
    (k g : String) (v : TranscriptSegment)
    (h : (storeGet m k).isSome = true) :
    (storeGet (storeSet m g v) k).isSome = true := by
  rw [storeGet_isSome_iff] at h ⊢
  obtain ⟨q, hq, hqk⟩ := h
  unfold storeSet
  by_cases hc : ((m.find? (fun p => decide (p.1 = g))).isSome : Bool) = true
  · refine ⟨if q.1 = g then (g, v) else q, ?_, ?_⟩
    · simp only [hc, if_true]
      exact List.mem_map_of_mem _ hq
    · split_ifs with hh
      · rw [← hh]
        exact hqk
      · exact hqk
  · simp only [hc, if_false]
    exact ⟨q, List.mem_append_left _ hq, hqk⟩

/-- The upsert of the `onTranscription` handler never removes a key. -/
theorem storeUpsert_keeps (m : List (String × TranscriptSegment))
    (d : TranscriptSegment) (k : String)
    (h : (storeGet m k).isSome = true) :
    (storeGet (storeUpsert m d) k).isSome = true := by
  unfold storeUpsert
  cases hg : storeGet m d.id with
  | some e => exact storeGet_storeSet_isSome m k d.id _ h
  | none => exact storeGet_storeSet_isSome m k d.id _ h

/-- C2, amended.  The live-segment POINTER of the manager is wholly
replaced by every transcript event, so it holds at most one live segment
at a time; but the keyed transcript STORE never deletes an entry, so a
superseded `in-progress-<t>` entry persists alongside the entry of every
later update (only the most recent one reflects the current live
segment). -/
theorem c2_amended :
    (∀ (st : ManagerState) (ev : SegEvent) (now : Nat),
      ((processSegments st ev now).1).lastSegment = ev.lastSegments) ∧
    (∀ (r : RoomState) (d : TranscriptSegment) (k : String),
      (storeGet r.transcriptMap k).isSome = true →
      (storeGet (onTranscriptionHandler r d).transcriptMap k).isSome = true) := by
  constructor
  · intro st ev now
    rfl
  · intro r d k h
    unfold onTranscriptionHandler
    by_cases hid : d.id = ""
    · simpa [hid] using h
    · simp only [hid, if_false]
      split_ifs with hg
      · exact storeUpsert_keeps _ d k h
      · exact storeUpsert_keeps _ d k h

/-- C2 witness: with the stale `in-progress-3` entry in the store, the
arrival of the `in-progress-4` live segment leaves it in place. -/
theorem c2_amended_witness :
    (storeGet
        (onTranscriptionHandler
          { roomInit none with
            transcriptMap := [("in-progress-3", inProgressSegment 3 (dLive "typing"))] }
          (inProgressSegment 4 (dLive "typing"))).transcriptMap
        "in-progress-3").isSome = true :=
  c2_amended.2
    { roomInit none with
      transcriptMap := [("in-progress-3", inProgressSegment 3 (dLive "typing"))] }
    (inProgressSegment 4 (dLive "typing")) "in-progress-3" (by decide)

/-- The transcript segments among a callback list. -/
def transcriptionCbs (cbs : List Callback) : List TranscriptSegment :=
  cbs.filterMap fun c =>
    match c with
    | Callback.transcription d => some d
    | _ => none

/-- Mapping segments into transcription callbacks is faithful. -/
theorem transcriptionCbs_map (l : List TranscriptSegment) :
    transcriptionCbs (l.map Callback.transcription) = l := by
  induction l with
  | nil => rfl
  | cons a t ih =>
    simp only [List.map_cons, transcriptionCbs, List.filterMap_cons] at ih ⊢
    rw [ih]

/-- The transcript-segment fold only appends to the log. -/
theorem mem_foldTranscript (segs : List RecentSegment) :
    ∀ (st : ManagerState) (p : ℚ × TranscriptionData),
      p ∈ st.transcript → p ∈ (foldTranscript st segs).transcript := by
  induction segs with
  | nil =>
    intro st p h
    exact h
  | cons s rest ih =>
    intro st p h
    have hstep : foldTranscript st (s :: rest) = foldTranscript (transcriptStep st s) rest := rfl
    rw [hstep]
    apply ih
    unfold transcriptStep
    split_ifs with hc
    · exact h
    · exact List.mem_append_left _ h

/-- The translation fold leaves the transcript log untouched. -/
theorem foldTranslations_transcript (trs : List RecentTranslation) :
    ∀ st : ManagerState, (foldTranslations st trs).transcript = st.transcript := by
  induction trs with
  | nil =>
    intro st
    rfl
  | cons t rest ih =>
    intro st
    have hstep : foldTranslations st (t :: rest) = foldTranslations (translationStep st t) rest := rfl
    rw [hstep, ih]
    unfold translationStep
    split_ifs <;> rfl

/-- The callbacks of `processSegments` are the available-languages
notification followed by the transcription emissions of one `updateUI`
pass over the updated state. -/
theorem processSegments_cbs (st : ManagerState) (ev : SegEvent) (now : Nat) :
    (processSegments st ev now).2
      = Callback.availableLanguagesChange ev.availableLanguages
          :: (updateUI (processSegments st ev now).1).map Callback.transcription := rfl

/-- C10.  On every processed transcript event the per-segment callback is
re-invoked once for EVERY entry of the whole accumulated finalized-segment
log — entries already present before the event included — plus once for
the in-progress segment exactly when it is designated and carries
non-empty text; deduplication is left to the consumer. -/
theorem c10_emission :
    ∀ (st : ManagerState) (ev : SegEvent) (now : Nat),
      (transcriptionCbs (processSegments st ev now).2
        = updateUI (processSegments st ev now).1) ∧
      ((transcriptionCbs (processSegments st ev now).2).length
        = ((processSegments st ev now).1).transcript.length
          + (liveEmits (processSegments st ev now).1).length) ∧
      ((processSegments st ev now).1).lastSegment = ev.lastSegments ∧
      (∀ p, p ∈ st.transcript →
        Callback.transcription
            (emitSegment ((processSegments st ev now).1).multilingualTranscript p.1 p.2)
          ∈ (processSegments st ev now).2) := by
  intro st ev now
  have hcbs := processSegments_cbs st ev now
  have h1 : transcriptionCbs (processSegments st ev now).2
      = updateUI (processSegments st ev now).1 := by
    rw [hcbs]
    have : transcriptionCbs
        (Callback.availableLanguagesChange ev.availableLanguages
          :: (updateUI (processSegments st ev now).1).map Callback.transcription)
        = transcriptionCbs
            ((updateUI (processSegments st ev now).1).map Callback.transcription) := rfl
    rw [this, transcriptionCbs_map]
  refine ⟨h1, ?_, rfl, ?_⟩
  · rw [h1]
    simp [updateUI]
  · intro p hp
    have hmem : p ∈ ((processSegments st ev now).1).transcript := by
      show p ∈ (let st1 := { st with availableLanguages := ev.availableLanguages };
        let st2 := foldTranscript st1 ev.transcript;
        let st3 := match ev.multilingual with
          | some trs => foldTranslations st2 trs
          | none => st2;
        ({ st3 with lastSegment := ev.lastSegments, lastResponseReceived := now } : ManagerState)).transcript
      cases hM : ev.multilingual with
      | some trs =>
        simp only [hM, foldTranslations_transcript]
        exact mem_foldTranscript ev.transcript _ p hp
      | none =>
        simp only [hM]
        exact mem_foldTranscript ev.transcript _ p hp
    rw [hcbs]
    apply List.mem_cons_of_mem
    apply List.mem_map_of_mem
    unfold updateUI
    exact List.mem_append_left _ (List.mem_map_of_mem _ hmem)

/-- C10 witness: a previously delivered segment (timestamp 12) is
re-emitted by the event that delivers the unrelated segment with id 6. -/
theorem c10_emission_witness :
    Callback.transcription
        (emitSegment
          ((processSegments
              { mgrInit "abc" with transcript := [(12, dHello)], processedTranscriptIds := [5] }
              { multilingual := none
                transcript := [{ id := 6, timestamp := 13, data := dWorld }]
                lastSegments := none
                availableLanguages := [] } 0).1).multilingualTranscript
          12 dHello)
      ∈ (processSegments
          { mgrInit "abc" with transcript := [(12, dHello)], processedTranscriptIds := [5] }
          { multilingual := none
            transcript := [{ id := 6, timestamp := 13, data := dWorld }]
            lastSegments := none
            availableLanguages := [] } 0).2 :=
  (c10_emission
      { mgrInit "abc" with transcript := [(12, dHello)], processedTranscriptIds := [5] }
      { multilingual := none
        transcript := [{ id := 6, timestamp := 13, data := dWorld }]
        lastSegments := none
        availableLanguages := [] } 0).2.2.2 (12, dHello) (by simp)

/-- For a valid (nonempty) id, the handler advances the pointer exactly
when `jsUpdateGlobal` fires. -/
theorem onTranscriptionHandler_global (r : RoomState) (d : TranscriptSegment)
    (h : d.id ≠ "") :
    (onTranscriptionHandler r d).globalTranscriptId
      = if jsUpdateGlobal r.globalTranscriptId d.id then some d.id
        else r.globalTranscriptId := by
  simp only [onTranscriptionHandler, h, if_false]
  split_ifs with hg <;> rfl

/-- Folds a list of emitted segments through the `onTranscription`
handler. -/
def runSegs (r : RoomState) (ds : List TranscriptSegment) : RoomState :=
  ds.foldl onTranscriptionHandler r

/-- Invariant of the advancing identifier along numeric-id segments: the
pointer stays a nonempty numeric string holding the running maximum. -/
theorem runSegs_global_max :
    ∀ (ds : List TranscriptSegment) (r : RoomState) (s : String) (q : ℚ),
      r.globalTranscriptId = some s → s ≠ "" → parseJsNumber s = some q →
      (∀ d ∈ ds, d.id ≠ "" ∧ (parseJsNumber d.id).isSome = true) →
      ∃ s2 q2,
        (runSegs r ds).globalTranscriptId = some s2 ∧ s2 ≠ "" ∧
        parseJsNumber s2 = some q2 ∧ q ≤ q2 ∧
        (q2 = q ∨ ∃ d ∈ ds, parseJsNumber d.id = some q2) ∧
        (∀ d ∈ ds, ∀ a, parseJsNumber d.id = some a → a ≤ q2) := by
  intro ds
  induction ds with
  | nil =>
    intro r s q h1 h2 h3 _
    exact ⟨s, q, h1, h2, h3, le_refl q, Or.inl rfl, by simp⟩
  | cons d rest ih =>
    intro r s q h1 h2 h3 hall
    obtain ⟨hdid, hdparse⟩ := hall d (List.mem_cons_self d rest)
    obtain ⟨a, ha⟩ := Option.isSome_iff_exists.mp hdparse
    have hrest : ∀ x ∈ rest, x.id ≠ "" ∧ (parseJsNumber x.id).isSome = true :=
      fun x hx => hall x (List.mem_cons_of_mem d hx)
    have hglob := onTranscriptionHandler_global r d hdid
    have hdef : jsUpdateGlobal (some s) d.id
        = (if s = "" then true
           else
             match parseJsNumber d.id, parseJsNumber s with
             | some a, some b => decide (b < a)
             | _, _ => false) := rfl
    have hcond : jsUpdateGlobal r.globalTranscriptId d.id = decide (q < a) := by
      rw [h1, hdef, if_neg h2, ha, h3]
    have hstep : runSegs r (d :: rest) = runSegs (onTranscriptionHandler r d) rest := rfl
    by_cases hlt : q < a
    · have hg2 : (onTranscriptionHandler r d).globalTranscriptId = some d.id := by
        rw [hglob, hcond]
        simp [hlt]
      obtain ⟨s2, q2, H1, H2, H3, H4, H5, H6⟩ :=
        ih (onTranscriptionHandler r d) d.id a hg2 hdid ha hrest
      refine ⟨s2, q2, by rw [hstep]; exact H1, H2, H3,
        le_trans (le_of_lt hlt) H4, ?_, ?_⟩
      · rcases H5 with H5 | ⟨x, hx, hxp⟩
        · exact Or.inr ⟨d, List.mem_cons_self d rest, H5 ▸ ha⟩
        · exact Or.inr ⟨x, List.mem_cons_of_mem d hx, hxp⟩
      · intro x hx b hb
        rcases List.mem_cons.mp hx with hxd | hx2
        · subst hxd
          rw [hb] at ha
          have hba : b = a := Option.some.inj ha
          rw [hba]
          exact H4
        · exact H6 x hx2 b hb
    · have hg2 : (onTranscriptionHandler r d).globalTranscriptId = some s := by
        rw [hglob, hcond]
        simp [hlt, h1]
      obtain ⟨s2, q2, H1, H2, H3, H4, H5, H6⟩ :=
        ih (onTranscriptionHandler r d) s q hg2 h2 h3 hrest
      refine ⟨s2, q2, by rw [hstep]; exact H1, H2, H3, H4, ?_, ?_⟩
      · rcases H5 with H5 | ⟨x, hx, hxp⟩
        · exact Or.inl H5
        · exact Or.inr ⟨x, List.mem_cons_of_mem d hx, hxp⟩
      · intro x hx b hb
        rcases List.mem_cons.mp hx with hxd | hx2
        · subst hxd
          rw [hb] at ha
          have hba : b = a := Option.some.inj ha
          rw [hba]
          exact le_trans (le_of_not_lt hlt) H4
        · exact H6 x hx2 b hb

/-- C6, amended.  The advancing identifier is replaced exactly when the
pointer is unset (or empty), or when both the incoming id and the pointer
parse as numbers and the incoming one strictly exceeds the current one;
an id that fails to parse as numeric never replaces a set pointer.
Consequently, for numeric-id segments delivered in any order from the
initial (unset) state, the identifier parses to the maximum numeric id
seen. -/
theorem c6_amended :
    (∀ (g : Option String) (id : String),
      jsUpdateGlobal g id = true ↔
        (g = none ∨ g = some "" ∨
          ∃ gs a b, g = some gs ∧ parseJsNumber id = some a ∧
            parseJsNumber gs = some b ∧ b < a)) ∧
    (∀ (r : RoomState) (d : TranscriptSegment), d.id ≠ "" →
      (onTranscriptionHandler r d).globalTranscriptId
        = if jsUpdateGlobal r.globalTranscriptId d.id then some d.id
          else r.globalTranscriptId) ∧
    (∀ (ds : List TranscriptSegment) (r : RoomState),
      r.globalTranscriptId = none →
      (∀ d ∈ ds, d.id ≠ "" ∧ (parseJsNumber d.id).isSome = true) →
      ds ≠ [] →
      ∃ s q, (runSegs r ds).globalTranscriptId = some s ∧
        parseJsNumber s = some q ∧
        (∀ d ∈ ds, ∀ a, parseJsNumber d.id = some a → a ≤ q) ∧
        (∃ d ∈ ds, parseJsNumber d.id = some q)) := by
  refine ⟨?_, fun r d h => onTranscriptionHandler_global r d h, ?_⟩
  · intro g id
    cases g with
    | none => simp [jsUpdateGlobal]
    | some gs =>
      have hdef : jsUpdateGlobal (some gs) id
          = (if gs = "" then true
             else
               match parseJsNumber id, parseJsNumber gs with
               | some a, some b => decide (b < a)
               | _, _ => false) := rfl
      rw [hdef]
      by_cases hg : gs = ""
      · simp [hg]
      · rw [if_neg hg]
        cases hpi : parseJsNumber id with
        | none => simp [hg, hpi]
        | some a =>
          cases hpg : parseJsNumber gs with
          | none => simp [hg, hpg]
          | some b =>
            simp only [decide_eq_true_eq]
            constructor
            · intro hba
              exact Or.inr (Or.inr ⟨gs, a, b, rfl, rfl, hpg, hba⟩)
            · rintro (hn | he | ⟨gs2, a2, b2, hgs, hi, hs, hba⟩)
              · exact absurd hn (by simp)
              · exact absurd (Option.some.inj he) hg
              · have hgs2 : gs2 = gs := (Option.some.inj hgs).symm
                subst hgs2
                rw [hpg] at hs
                have ha2 : a2 = a := (Option.some.inj hi).symm
                have hb2 : b2 = b := (Option.some.inj hs).symm
                rw [ha2, hb2] at hba
                exact hba
  · intro ds r hr hall hne
    cases ds with
    | nil => exact absurd rfl hne
    | cons d rest =>
      obtain ⟨hdid, hdparse⟩ := hall d (List.mem_cons_self d rest)
      obtain ⟨a, ha⟩ := Option.isSome_iff_exists.mp hdparse
      have hg2 : (onTranscriptionHandler r d).globalTranscriptId = some d.id := by
        rw [onTranscriptionHandler_global r d hdid, hr]
        rfl
      have hrest : ∀ x ∈ rest, x.id ≠ "" ∧ (parseJsNumber x.id).isSome = true :=
        fun x hx => hall x (List.mem_cons_of_mem d hx)
      obtain ⟨s2, q2, H1, H2, H3, H4, H5, H6⟩ :=
        runSegs_global_max rest (onTranscriptionHandler r d) d.id a hg2 hdid ha hrest
      refine ⟨s2, q2, H1, H3, ?_, ?_⟩
      · intro x hx b hb
        rcases List.mem_cons.mp hx with hxd | hx2
        · subst hxd
          rw [hb] at ha
          have hba : b = a := Option.some.inj ha
          rw [hba]
          exact H4
        · exact H6 x hx2 b hb
      · rcases H5 with H5 | ⟨x, hx, hxp⟩
        · exact ⟨d, List.mem_cons_self d rest, H5 ▸ ha⟩
        · exact ⟨x, List.mem_cons_of_mem d hx, hxp⟩

/-- A finalized segment emission with a plain numeric id. -/
def numSeg (id : String) (ts : ℚ) : TranscriptSegment :=
  { id := id, text := "t", timestamp := ts, name := "Unknown", completed := true
    language := none, translations := none }

/-- C6 witness: delivering numeric ids 5 then 7 from the unset pointer
yields an identifier parsing to the maximum. -/
theorem c6_amended_witness :
    ∃ s q,
      (runSegs (roomInit none) [numSeg "5" 1, numSeg "7" 2]).globalTranscriptId
        = some s ∧
      parseJsNumber s = some q ∧
      (∀ d ∈ [numSeg "5" 1, numSeg "7" 2], ∀ a,
        parseJsNumber d.id = some a → a ≤ q) ∧
      (∃ d ∈ [numSeg "5" 1, numSeg "7" 2], parseJsNumber d.id = some q) :=
  c6_amended.2.2 [numSeg "5" 1, numSeg "7" 2] (roomInit none) rfl (by decide)
    (by decide)

/-- The recording invariant: while capture is active, the status is
neither error nor disconnected. -/
def recInv (r : RoomState) : Prop :=
  r.isRecording = true →
    r.status ≠ ConnStatus.error ∧ r.status ≠ ConnStatus.disconnected

/-- The status notification always records the new status. -/
theorem onStatusChange_status (r : RoomState) (s : ConnStatus) :
    ((onStatusChangeHandler r s).1).status = s := by
  simp only [onStatusChangeHandler]
  split_ifs <;> rfl

/-- An error notification stops the capture. -/
theorem onError_stops (r : RoomState) :
    ((onStatusChangeHandler r ConnStatus.error).1).isRecording = false := by
  simp only [onStatusChangeHandler]
  split_ifs <;> simp_all

/-- A disconnection notification stops the capture. -/
theorem onDisconnected_stops (r : RoomState) :
    ((onStatusChangeHandler r ConnStatus.disconnected).1).isRecording = false := by
  simp only [onStatusChangeHandler]
  split_ifs <;> simp_all

/-- A status notification never starts a recording. -/
theorem onStatusChange_rec_le (r : RoomState) (s : ConnStatus) :
    ((onStatusChangeHandler r s).1).isRecording = true → r.isRecording = true := by
  simp only [onStatusChangeHandler]
  split_ifs <;> intro h <;> simp_all

/-- The transcription handler does not touch status or recording. -/
theorem onTranscription_status (r : RoomState) (d : TranscriptSegment) :
    (onTranscriptionHandler r d).status = r.status
      ∧ (onTranscriptionHandler r d).isRecording = r.isRecording := by
  simp only [onTranscriptionHandler]
  split_ifs <;> exact ⟨rfl, rfl⟩

/-- The available-languages handler does not touch status or recording. -/
theorem onAvailableLanguages_status (r : RoomState) (ls : List String) :
    (onAvailableLanguagesHandler r ls).status = r.status
      ∧ (onAvailableLanguagesHandler r ls).isRecording = r.isRecording := by
  simp only [onAvailableLanguagesHandler]
  split_ifs with h1
  · cases r.storedLanguage with
    | none => exact ⟨rfl, rfl⟩
    | some saved =>
      dsimp only
      split_ifs <;> exact ⟨rfl, rfl⟩
  · exact ⟨rfl, rfl⟩

/-- Every room callback preserves the recording invariant. -/
theorem roomHandleCallback_recInv (r : RoomState) (c : Callback) (h : recInv r) :
    recInv (roomHandleCallback r c).1 := by
  cases c with
  | statusChange s =>
    cases s with
    | error =>
      intro hrec
      rw [roomHandleCallback] at hrec
      rw [onError_stops] at hrec
      exact absurd hrec (by simp)
    | disconnected =>
      intro hrec
      rw [roomHandleCallback] at hrec
      rw [onDisconnected_stops] at hrec
      exact absurd hrec (by simp)
    | connected =>
      intro _
      rw [roomHandleCallback, onStatusChange_status]
      exact ⟨by simp, by simp⟩
    | waiting =>
      intro _
      rw [roomHandleCallback, onStatusChange_status]
      exact ⟨by simp, by simp⟩
    | connecting =>
      intro _
      rw [roomHandleCallback, onStatusChange_status]
      exact ⟨by simp, by simp⟩
  | transcription d =>
    intro hrec
    rw [roomHandleCallback] at hrec ⊢
    rw [(onTranscription_status r d).1]
    exact h ((onTranscription_status r d).2 ▸ hrec)
  | languageDetected lang prob =>
    intro hrec
    exact h hrec
  | availableLanguagesChange ls =>
    intro hrec
    rw [roomHandleCallback] at hrec ⊢
    rw [(onAvailableLanguages_status r ls).1]
    exact h ((onAvailableLanguages_status r ls).2 ▸ hrec)
  | summary s =>
    intro hrec
    rw [roomHandleCallback] at hrec ⊢
    split_ifs at hrec ⊢ <;> exact h hrec

/-- State-only view of applying a callback list. -/
def roomFold (r : RoomState) (cbs : List Callback) : RoomState :=
  cbs.foldl (fun r c => (roomHandleCallback r c).1) r

/-- The state component of `applyCallbacks` ignores the action log. -/
theorem applyCallbacks_fst (cbs : List Callback) :
    ∀ (r : RoomState) (acts : List RoomAction),
      (cbs.foldl
        (fun p c =>
          let q := roomHandleCallback p.1 c
          (q.1, p.2 ++ q.2))
        (r, acts)).1
        = roomFold r cbs := by
  induction cbs with
  | nil =>
    intro r acts
    rfl
  | cons c rest ih =>
    intro r acts
    exact ih ((roomHandleCallback r c).1) _

/-- `applyCallbacks` and `roomFold` agree on the state. -/
theorem applyCallbacks_room (r : RoomState) (cbs : List Callback) :
    (applyCallbacks r cbs).1 = roomFold r cbs :=
  applyCallbacks_fst cbs r []

/-- Folding callbacks preserves the recording invariant. -/
theorem roomFold_recInv (cbs : List Callback) :
    ∀ r : RoomState, recInv r → recInv (roomFold r cbs) := by
  induction cbs with
  | nil =>
    intro r h
    exact h
  | cons c rest ih =>
    intro r h
    exact ih _ (roomHandleCallback_recInv r c h)

/-- Every system step preserves the recording invariant. -/
theorem sysStep_recInv (s : SysState) (e : SysEvent) (h : recInv s.room) :
    recInv (sysStep s e).1.room := by
  cases e with
  | inbound msg =>
    simp only [sysStep]
    rw [applyCallbacks_room]
    exact roomFold_recInv _ _ h
  | socketError =>
    simp only [sysStep]
    rw [applyCallbacks_room]
    exact roomFold_recInv _ _ h
  | socketClose =>
    simp only [sysStep]
    rw [applyCallbacks_room]
    exact roomFold_recInv _ _ h
  | socketOpen => exact h
  | userToggleRecord =>
    simp only [sysStep]
    split_ifs with h1 h2
    · intro hrec
      exact absurd hrec (by simp)
    · intro _
      refine ⟨?_, ?_⟩ <;> (show s.room.status ≠ _; rw [h2]; simp)
    · exact h
  | audioFrame throws =>
    simp only [sysStep]
    split_ifs with h1
    · intro hrec
      exact h hrec
    · exact h
  | manualConnect =>
    simp only [sysStep]
    rw [applyCallbacks_room]
    exact roomFold_recInv _ _ h
  | userDisconnect => exact h

/-- Runs preserve the recording invariant. -/
theorem sysRun_recInv (evs : List SysEvent) :
    ∀ s : SysState, recInv s.room → recInv (sysRun s evs).room := by
  induction evs with
  | nil =>
    intro s h
    exact h
  | cons e rest ih =>
    intro s h
    exact ih _ (sysStep_recInv s e h)

/-- A step transmits audio only while a recording is active. -/
theorem sysStep_transmit (s : SysState) (e : SysEvent)
    (h : (sysStep s e).2 = true) : s.room.isRecording = true := by
  cases e with
  | audioFrame throws =>
    by_cases hr : s.room.isRecording = true
    · exact hr
    · simp only [sysStep] at h
      rw [if_neg hr] at h
      exact absurd h (by simp)
  | inbound msg => exact absurd h (by simp [sysStep])
  | socketError => exact absurd h (by simp [sysStep])
  | socketClose => exact absurd h (by simp [sysStep])
  | socketOpen => exact absurd h (by simp [sysStep])
  | userToggleRecord =>
    simp only [sysStep] at h
    split_ifs at h <;> exact absurd h (by simp)
  | manualConnect => exact absurd h (by simp [sysStep])
  | userDisconnect => exact absurd h (by simp [sysStep])

/-- C9, amended.  Entering `error` or `disconnected` stops any active
capture, and along every run from the initial state no audio frame is
transmitted while the status is `error` or `disconnected`; transmission
is NOT limited to `connected`, though — the counterexample transmits
while `waiting`. -/
theorem c9_amended :
    (∀ r : RoomState,
      ((onStatusChangeHandler r ConnStatus.error).1).isRecording = false ∧
      ((onStatusChangeHandler r ConnStatus.disconnected).1).isRecording = false) ∧
    (∀ (uid : String) (stored : Option String) (evs : List SysEvent)
        (e : SysEvent),
      (sysStep (sysRun (sysInit uid stored) evs) e).2 = true →
        (sysRun (sysInit uid stored) evs).room.status ≠ ConnStatus.error ∧
        (sysRun (sysInit uid stored) evs).room.status ≠ ConnStatus.disconnected) := by
  constructor
  · intro r
    exact ⟨onError_stops r, onDisconnected_stops r⟩
  · intro uid stored evs e h
    have hinit : recInv (sysInit uid stored).room := by
      intro hrec
      exact absurd hrec (by simp [sysInit, roomInit])
    have hinv := sysRun_recInv evs (sysInit uid stored) hinit
    exact hinv (sysStep_transmit _ e h)

/-- C9 witness: along the WAIT trace, the frame transmitted while
`waiting` indeed happens outside `error` and `disconnected`. -/
theorem c9_amended_witness :
    (sysRun (sysInit "abc" none)
        [SysEvent.manualConnect, SysEvent.socketOpen, SysEvent.inbound readyMsg,
          SysEvent.userToggleRecord, SysEvent.inbound waitMsg]).room.status
        ≠ ConnStatus.error ∧
    (sysRun (sysInit "abc" none)
        [SysEvent.manualConnect, SysEvent.socketOpen, SysEvent.inbound readyMsg,
          SysEvent.userToggleRecord, SysEvent.inbound waitMsg]).room.status
        ≠ ConnStatus.disconnected :=
  c9_amended.2 "abc" none
    [SysEvent.manualConnect, SysEvent.socketOpen, SysEvent.inbound readyMsg,
      SysEvent.userToggleRecord, SysEvent.inbound waitMsg]
    (SysEvent.audioFrame false) (by decide)

/-- The fallback key for a finalized segment is never empty. -/
theorem transcriptKey_ne_empty (ts : ℚ) :
    ("transcript-" ++ jsNumToString ts) ≠ "" := by
  intro hc
  have hlen := congrArg String.length hc
  rw [String.length_append] at hlen
  have h1 : "transcript-".length = 11 := rfl
  have h2 : "".length = 0 := rfl
  omega

/-- The key under which a finalized segment is emitted is never empty. -/
theorem segKey_ne_empty (d : TranscriptionData) (ts : ℚ) : segKey d ts ≠ "" := by
  unfold segKey strOrDefault
  cases d.uid with
  | none => exact transcriptKey_ne_empty ts
  | some u =>
    by_cases h : u = ""
    · simpa [h] using transcriptKey_ne_empty ts
    · simpa [h] using h

/-- Redelivering the id currently held by the pointer never advances
it. -/
theorem jsUpdateGlobal_self (k : String) (h : k ≠ "") :
    jsUpdateGlobal (some k) k = false := by
  have hdef : jsUpdateGlobal (some k) k
      = (if k = "" then true
         else
           match parseJsNumber k, parseJsNumber k with
           | some a, some b => decide (b < a)
           | _, _ => false) := rfl
  rw [hdef, if_neg h]
  cases hp : parseJsNumber k with
  | none => rfl
  | some a => simp

/-- The first replacement always fires on an unset pointer. -/
theorem jsUpdateGlobal_none (id : String) : jsUpdateGlobal none id = true := rfl

/-- Spreading a record over the empty record gives it back. -/
theorem mergeRecords_nil (b : List (String × String)) : mergeRecords [] b = b := by
  unfold mergeRecords
  simp

/-- Transcript event carrying one finalized segment. -/
def segMsg (sid T : ℚ) (d : TranscriptionData) : InboundMessage :=
  { transcript := some [{ id := sid, timestamp := T, data := d }] }

/-- Transcript event carrying one multilingual (translation) entry. -/
def transMsg (tid T : ℚ) (trs : List (String × String)) : InboundMessage :=
  { transcript := some []
    multilingual := some [{ id := tid, timestamp := T, translations := trs }] }

/-- C3.  Reconciliation is order-independent for translations: for any
finalized segment and any translation entry sharing timestamp `T`,
delivering the translation event before the transcript event leaves the
whole system — the keyed store entry included — in exactly the same state
as delivering it after. -/
theorem c3_order_independent (uid : String) (stored : Option String)
    (sid tid T : ℚ) (d : TranscriptionData) (trs : List (String × String)) :
    sysRun (sysInit uid stored)
        [SysEvent.inbound (segMsg sid T d), SysEvent.inbound (transMsg tid T trs)]
      = sysRun (sysInit uid stored)
          [SysEvent.inbound (transMsg tid T trs), SysEvent.inbound (segMsg sid T d)] := by
  simp [sysRun, sysStep, sysInit, mgrInit, roomInit, segMsg, transMsg,
    handleMessage, truthyStr, processSegments, foldTranscript, foldTranslations,
    transcriptStep, translationStep, updateUI, liveEmits, emitSegment,
    applyCallbacks, roomHandleCallback, onAvailableLanguagesHandler,
    onTranscriptionHandler, storeUpsert, storeGet, storeSet, mergeTranscript,
    mergeRecords_nil, segKey_ne_empty, jsUpdateGlobal_none, jsUpdateGlobal_self]
